import Mathlib

/-!
Verification development for the usbip-autobind control plane.

The definitions below are a shallow embedding of the Python sources:

* src/src/client/__main__.py   — the client agent (UsbipClient namespace);
* src/src/server/tcp_server.py — first-line parsing of the control socket
  (TcpServer namespace);
* src/src/server/assignment_manager.py — the persistent assignment store
  (AssignmentManager namespace, AssignRecord, Json);
* src/src/server/device_manager.py, client_manager.py, web_server.py,
  events.py — the daemon state machine (DaemonState, DeviceManager,
  ClientManager, WebServer namespaces).

Python dictionaries are modelled as association lists in insertion order
(PyDict helpers); Python sets as lists with a membership guard on insertion.
Async functions that the source invokes without awaiting them produce PyCoro
tokens: the coroutine object exists but its body never runs, so it has no
effect on the state. External effects (the usbip CLI, sysfs, socket
liveness) are supplied by an environment of boolean oracles.
-/

/-- Python str.strip / str.split whitespace, restricted to the ASCII range
(the frames and identifiers in this protocol are ASCII). -/
def isPySpace (c : Char) : Bool :=
  c == ' ' || c == '\t' || c == '\n' || c == '\r' || c == '\x0b' || c == '\x0c'

/-- Python str.strip on a character list: drop whitespace from both ends. -/
def pyStripL (l : List Char) : List Char :=
  ((l.dropWhile isPySpace).reverse.dropWhile isPySpace).reverse

/-- Python substring containment, the operator `sub in s` on strings. -/
def containsSub (s sub : List Char) : Bool :=
  if sub.isPrefixOf s then true else
  match s with
  | [] => false
  | _ :: t => containsSub t sub

/-- Helper for Python str.split with no separator: accumulate a word. -/
def pySplitAux : List Char → List Char → List String
  | [], acc => if acc.isEmpty then [] else [String.mk acc.reverse]
  | c :: t, acc =>
    if isPySpace c then
      if acc.isEmpty then pySplitAux t [] else String.mk acc.reverse :: pySplitAux t []
    else pySplitAux t (c :: acc)

/-- Python str.split with no separator: split on whitespace runs, no empty
parts. -/
def pySplit (s : String) : List String := pySplitAux s.toList []

/-- Python dict lookup, d.get(k): first matching key (keys are unique, see
pyInsert). -/
def pyGet {α : Type} (d : List (String × α)) (k : String) : Option α :=
  List.lookup k d

/-- Python dict assignment d[k] = v: update the entry in place when the key
exists, append otherwise (insertion order is preserved, keys stay unique). -/
def pyInsert {α : Type} (d : List (String × α)) (k : String) (v : α) : List (String × α) :=
  if (List.lookup k d).isSome then
    d.map (fun p => if p.1 = k then (k, v) else p)
  else d ++ [(k, v)]

/-- Python dict d.pop(k, None): drop the entry for k if present. With unique
keys, filtering all matches removes exactly that entry. -/
def pyPop {α : Type} (d : List (String × α)) (k : String) : List (String × α) :=
  d.filter (fun p => p.1 ≠ k)

/-- Python dict.update(m): insert every entry of m in iteration order. -/
def pyUpdate {α : Type} (d m : List (String × α)) : List (String × α) :=
  m.foldl (fun acc p => pyInsert acc p.1 p.2) d

/-- Python truthiness of an optional string: None and the empty string are
falsy, every other string is truthy. -/
def pyTruthyOptStr : Option String → Bool
  | none => false
  | some s => s != ""

/- ------------------------------------------------------------------ -/
/- Client agent: src/src/client/__main__.py                            -/
/- ------------------------------------------------------------------ -/

/-- The usbip commands the client agent can spawn while handling a frame. -/
inductive UsbipCmd where
  | attach (bus_id : String)
  | detach (port_id : String)
deriving DecidableEq, Repr

/-- What the client-side usbip CLI reports: get_attached_ports gives the
map bus_id to local port, list_bound_devices gives the bus ids exported by
the server. -/
structure ClientEnv where
  attached_ports : List (String × String)
  server_devices : List String

/-- detach_device (client __main__.py lines 105-121): re-query the attached
ports; when the bus id is not attached, log and return; otherwise run
usbip detach -p port followed by the 200 ms settle sleep. -/
def UsbipClient.detach_device (env : ClientEnv) (bus_id : String) : List UsbipCmd :=
  match List.lookup bus_id env.attached_ports with
  | none => []
  | some port_id => [UsbipCmd.detach port_id]

/-- The per-line body of UsbipClient.data_received (client __main__.py lines
137-166): strip the line; an empty message is skipped; a message containing
the substring bound takes the attach branch (detach first when locally
attached, then attach when the server exports the device); otherwise a
message containing the substring unbound takes the detach branch. The bus
id is parts[-2], the second-to-last whitespace token, guarded by
len(parts) >= 2. -/
def UsbipClient.data_received_line (env : ClientEnv) (line : String) : List UsbipCmd :=
  let message := String.mk (pyStripL line.toList)
  if message == "" then []
  else if containsSub message.toList "bound".toList then
    let parts := pySplit message
    if parts.length ≥ 2 then
      let device_id := parts.getD (parts.length - 2) ""
      (if (List.lookup device_id env.attached_ports).isSome then
        UsbipClient.detach_device env device_id
      else []) ++
      (if device_id ∈ env.server_devices then [UsbipCmd.attach device_id] else [])
    else []
  else if containsSub message.toList "unbound".toList then
    let parts := pySplit message
    if parts.length ≥ 2 then
      UsbipClient.detach_device env (parts.getD (parts.length - 2) "")
    else []
  else []

/- ------------------------------------------------------------------ -/
/- Control socket first line: src/src/server/tcp_server.py             -/
/- ------------------------------------------------------------------ -/

/-- tcp_server.py lines 23-25: when the stripped first line starts with
CLIENT_ID: the client id is everything after the first colon, stripped
(Python raw.split with colon and maxsplit 1, item 1); otherwise None. -/
def TcpServer.client_id_of_raw (raw : List Char) : Option (List Char) :=
  if ("CLIENT_ID:".toList).isPrefixOf raw then
    some (pyStripL ((raw.dropWhile (fun c => !(c == ':'))).drop 1))
  else none

/-- tcp_server.py line 27: the fabricated id from the peer address. -/
def TcpServer.fallback_id (ip : String) (port : Nat) : String :=
  ip ++ ":" ++ toString port

/-- tcp_server.py lines 22-27: strip the first line, extract the client id
after CLIENT_ID: when present; when the result is None or empty (Python
falsy) fall back to peer_ip colon peer_port. -/
def TcpServer.parse_client_id (first : List Char) (ip : String) (port : Nat) : String :=
  match TcpServer.client_id_of_raw (pyStripL first) with
  | some cid => if cid.isEmpty then TcpServer.fallback_id ip port else String.mk cid
  | none => TcpServer.fallback_id ip port

/- ------------------------------------------------------------------ -/
/- Assignment store: src/src/server/assignment_manager.py              -/
/- ------------------------------------------------------------------ -/

/-- The in-memory assignment record held by AssignmentManager:
assign_all_client_id (a string, the sentinel string none, or Python None
after loading a file without the key) and the device_assignments dict. -/
structure AssignRecord where
  assign_all_client_id : Option String
  device_assignments : List (String × String)
deriving DecidableEq, Repr

/-- The JSON fragment the assignments file can hold after a save: an object
of string or null values. json.dump followed by json.load is the identity
on this fragment, so the file is modelled by its parsed JSON value. -/
inductive Json where
  | null : Json
  | str : String → Json
  | obj : List (String × Json) → Json

/-- Python dict.get(k) on a parsed JSON object: None when the key is absent
or the value is not an object. -/
def jsonGet (j : Json) (k : String) : Option Json :=
  match j with
  | Json.obj l => List.lookup k l
  | _ => none

/-- AssignmentManager.save_assignments (lines 41-51): the JSON object
written to the temp file and renamed over the assignments file. A Python
None in assign_all_client_id serializes as JSON null. -/
def AssignmentManager.dump_assignments (r : AssignRecord) : Json :=
  Json.obj
    [("assign_all_client_id",
       match r.assign_all_client_id with
       | some s => Json.str s
       | none => Json.null),
     ("device_assignments",
       Json.obj (r.device_assignments.map (fun p => (p.1, Json.str p.2))))]

/-- AssignmentManager.load_assignments (lines 53-64) on a parsed file:
assign_all_client_id := data.get of the key (None when absent or null);
device_assignments.clear() then update with data.get of the key, default
empty. A save-produced file only carries string values in the inner
object, so non-string values are dropped rather than modelled. -/
def AssignmentManager.load_record (j : Json) : AssignRecord :=
  let assign_all : Option String :=
    match jsonGet j "assign_all_client_id" with
    | some (Json.str s) => some s
    | _ => none
  let entries : List (String × String) :=
    match jsonGet j "device_assignments" with
    | some (Json.obj l) =>
        l.filterMap (fun p =>
          match p.2 with
          | Json.str s => some (p.1, s)
          | _ => none)
    | _ => []
  { assign_all_client_id := assign_all,
    device_assignments := pyUpdate [] entries }

/- ------------------------------------------------------------------ -/
/- Daemon state                                                        -/
/- ------------------------------------------------------------------ -/

/-- A Python coroutine object created by calling an async function. When
the source stores one without awaiting it, its body never runs. -/
inductive PyCoro where
  | send_to_client (client_id : String) (message : String)
  | notify_bound (bus_id : String)
deriving DecidableEq, Repr

/-- The daemon state across DeviceManager, ClientManager and
AssignmentManager. Writers are identified by numbers; writer_to_id, a pure
mirror of clients used only for logging-free bookkeeping, is omitted.
disk is the parsed content of the assignments file (none: file absent),
delivered the frames whose write plus drain completed, per writer,
closed_writers the writers closed via writer.close(). -/
structure DaemonState where
  clients : List (String × Nat)
  closed_writers : List Nat
  device_bind_set : List String
  device_names : List (String × String)
  device_in_use : List (String × Option String)
  device_assignments : List (String × String)
  assign_all_client_id : Option String
  disk : Option AssignRecord
  delivered : List (Nat × String)
deriving DecidableEq, Repr

/-- The daemon state right after startup with an absent assignments file:
AssignmentManager init sets assign_all_client_id to the sentinel string
and load_assignments passes on FileNotFoundError. -/
def DaemonState.init : DaemonState :=
  { clients := [], closed_writers := [], device_bind_set := [],
    device_names := [], device_in_use := [], device_assignments := [],
    assign_all_client_id := some "none", disk := none, delivered := [] }

/-- External effects: whether a writer accepts a write plus drain, whether
usbip bind for a bus id succeeds, and the sysfs product name. -/
structure Env where
  writerAlive : Nat → Bool
  bindSucceeds : String → Bool
  deviceName : String → String

def frame_bound (bus_id : String) : String := "Device " ++ bus_id ++ " bound\n"

def frame_unbound (bus_id : String) : String := "Device " ++ bus_id ++ " unbound\n"

def frame_removed (bus_id : String) : String := "Device " ++ bus_id ++ " removed\n"

/-- AssignmentManager.save_assignments as a state step: snapshot the
in-memory record into the file (write temp file, atomic rename). -/
def AssignmentManager.save_assignments (st : DaemonState) : DaemonState :=
  { st with disk := some { assign_all_client_id := st.assign_all_client_id,
                           device_assignments := st.device_assignments } }

/-- AssignmentManager.set_assignment: device_assignments is a
PersistentDict, so the item assignment triggers save_assignments. -/
def AssignmentManager.set_assignment (st : DaemonState) (bus_id client_id : String) : DaemonState :=
  AssignmentManager.save_assignments
    { st with device_assignments := pyInsert st.device_assignments bus_id client_id }

/-- AssignmentManager.remove_assignment: PersistentDict.pop saves even when
the key was absent. -/
def AssignmentManager.remove_assignment (st : DaemonState) (bus_id : String) : DaemonState :=
  AssignmentManager.save_assignments
    { st with device_assignments := pyPop st.device_assignments bus_id }

/-- AssignmentManager.set_assign_all (lines 75-77): assign the attribute,
then save. The web API does not call this helper. -/
def AssignmentManager.set_assign_all (st : DaemonState) (client_id : Option String) : DaemonState :=
  AssignmentManager.save_assignments { st with assign_all_client_id := client_id }

/-- DeviceManager.is_device_in_use (line 166): device_in_use.get with
default the string none, compared against the string none. A stored Python
None also counts as in use, because None differs from the string. -/
def DeviceManager.is_device_in_use (st : DaemonState) (bus_id : String) : Bool :=
  match List.lookup bus_id st.device_in_use with
  | none => false
  | some v => v != some "none"

def DeviceManager.mark_device_in_use (st : DaemonState) (bus_id client_id : String) : DaemonState :=
  { st with device_in_use := pyInsert st.device_in_use bus_id (some client_id) }

def DeviceManager.free_device (st : DaemonState) (bus_id : String) : DaemonState :=
  { st with device_in_use := pyPop st.device_in_use bus_id }

/-- DeviceManager.ensure_bound (lines 82-87): return if already in the
bind set; otherwise usbip_bind (fast path through the sysfs driver link or
the CLI, collapsed into the oracle) and on success add to the bind set and
record the sysfs product name. -/
def DeviceManager.ensure_bound (env : Env) (st : DaemonState) (bus_id : String) : DaemonState :=
  if bus_id ∈ st.device_bind_set then st
  else if env.bindSucceeds bus_id then
    { st with device_bind_set := st.device_bind_set ++ [bus_id],
              device_names := pyInsert st.device_names bus_id (env.deviceName bus_id) }
  else st

/-- Insertion step for Python sorted() on strings. -/
def insertSortedStr (x : String) : List String → List String
  | [] => [x]
  | y :: t => if x ≤ y then x :: y :: t else y :: insertSortedStr x t

/-- Python sorted() on a list of strings. -/
def pySorted (l : List String) : List String :=
  l.foldr insertSortedStr []

/-- ClientManager.unregister_client (lines 58-69): collect the bus ids
whose device_in_use value equals this client id, free each, pop the writer
from clients; when one was registered, close it. -/
def ClientManager.unregister_client (st : DaemonState) (client_id : String) : DaemonState :=
  let freed := (st.device_in_use.filter (fun p => p.2 == some client_id)).map Prod.fst
  let st := freed.foldl (fun s b => DeviceManager.free_device s b) st
  match List.lookup client_id st.clients with
  | none => { st with clients := pyPop st.clients client_id }
  | some w =>
      { st with clients := pyPop st.clients client_id,
                closed_writers := st.closed_writers ++ [w] }

/-- ClientManager.send_to_client (lines 71-83): no writer for the id means
log and return False; otherwise write the frame and drain — on success the
frame is delivered and True returned, on ConnectionResetError or OSError
the session is unregistered and False returned. -/
def ClientManager.send_to_client (env : Env) (st : DaemonState) (client_id message : String) :
    DaemonState × Bool :=
  match List.lookup client_id st.clients with
  | none => (st, false)
  | some w =>
    if env.writerAlive w then
      ({ st with delivered := st.delivered ++ [(w, message)] }, true)
    else
      (ClientManager.unregister_client st client_id, false)

/-- ClientManager.register_client (lines 21-56): store the writer under the
client id (overwriting any previous entry without closing it); first loop
over sorted(device_bind_set): when the persisted assignment equals this
client and the device is not in use, write the bound frame, mark in use,
drain — a failed drain frees the device again. Second loop only when
assign_all_client_id is Python-falsy (None or empty — the sentinel string
none is truthy): for each bus id with no assignment, set the assignment,
write the bound frame, mark in use, drain — a failed drain removes the
assignment and frees the device. The trailing drain has no state effect. -/
def ClientManager.register_client (env : Env) (st0 : DaemonState) (client_id : String) (w : Nat) :
    DaemonState :=
  let st := { st0 with clients := pyInsert st0.clients client_id w }
  let st := (pySorted st.device_bind_set).foldl (fun s bus_id =>
    if (List.lookup bus_id s.device_assignments == some client_id) &&
       !(DeviceManager.is_device_in_use s bus_id) then
      if env.writerAlive w then
        DeviceManager.mark_device_in_use
          { s with delivered := s.delivered ++ [(w, frame_bound bus_id)] } bus_id client_id
      else
        DeviceManager.free_device
          (DeviceManager.mark_device_in_use s bus_id client_id) bus_id
    else s) st
  if pyTruthyOptStr st.assign_all_client_id then st
  else
    (pySorted st.device_bind_set).foldl (fun s bus_id =>
      if (List.lookup bus_id s.device_assignments).isNone then
        let s := AssignmentManager.set_assignment s bus_id client_id
        if env.writerAlive w then
          DeviceManager.mark_device_in_use
            { s with delivered := s.delivered ++ [(w, frame_bound bus_id)] } bus_id client_id
        else
          DeviceManager.free_device
            (AssignmentManager.remove_assignment
              (DeviceManager.mark_device_in_use s bus_id client_id) bus_id) bus_id
      else s) st

/-- ClientManager.force_free (lines 88-90), the subscriber of the
force_free topic: a sync function that returns the coroutine object of
send_to_client for the unbound frame. The dispatcher collects the return
value without awaiting it, so the frame is never written. -/
def ClientManager.force_free (st : DaemonState) (bus_id prev : String) : DaemonState × PyCoro :=
  (st, PyCoro.send_to_client prev (frame_unbound bus_id))

/-- ClientManager.device_added (lines 102-105), the subscriber of the
device_added topic: when assign_all_client_id is truthy and names a
connected client, persist it as the assignment; then return the coroutine
object of ClientManager.notify_bound_to_assigned, which the dispatcher
collects without awaiting, so the bound frame is never written here. -/
def ClientManager.device_added (st : DaemonState) (bus_id : String) : DaemonState × PyCoro :=
  let st :=
    match st.assign_all_client_id with
    | some a =>
        if (a != "") && (List.lookup a st.clients).isSome then
          AssignmentManager.set_assignment st bus_id a
        else st
    | none => st
  (st, PyCoro.notify_bound bus_id)

/-- ClientManager.device_removed (lines 98-100), the subscriber of the
device_removed topic: a sync function that, for each connected client,
calls the async send_to_client and discards the coroutine object without
awaiting it — no removed frame is ever written. -/
def ClientManager.device_removed (st : DaemonState) (bus_id : String) :
    DaemonState × List PyCoro :=
  (st, st.clients.map (fun p => PyCoro.send_to_client p.1 (frame_removed bus_id)))

/-- DeviceManager.notify_bound_to_assigned (lines 117-122): await
dispatcher.emit of device_added, whose single subscriber is the sync
ClientManager.device_added; emit returns the one-element list holding its
unawaited coroutine. That list is non-empty, hence truthy, so
device_in_use for the bus id is set to device_assignments.get — which is
Python None when the device has no assignment. -/
def DeviceManager.notify_bound_to_assigned (st : DaemonState) (bus_id : String) : DaemonState :=
  let emitted := ClientManager.device_added st bus_id
  let result : List PyCoro := [emitted.2]
  let st := emitted.1
  if result.isEmpty then st
  else { st with device_in_use :=
          pyInsert st.device_in_use bus_id (List.lookup bus_id st.device_assignments) }

/-- DeviceManager.handle_device_event for action add (lines 133-137), after
the interface and port-prefix filters: ensure_bound, then the scheduled
notify_bound_to_assigned task runs on the loop. The updated emission only
refreshes the web UI. -/
def DeviceManager.handle_add (env : Env) (st : DaemonState) (bus_id : String) : DaemonState :=
  DeviceManager.notify_bound_to_assigned (DeviceManager.ensure_bound env st bus_id) bus_id

/-- DeviceManager.handle_device_event for action remove (lines 138-145),
after the filters: discard the bus id from the bind set when present, pop
its name and in-use entry, then the scheduled emit of device_removed runs
ClientManager.device_removed, whose send coroutines are never awaited. -/
def DeviceManager.handle_remove (st : DaemonState) (bus_id : String) : DaemonState :=
  let st := { st with device_bind_set := st.device_bind_set.erase bus_id,
                      device_names := pyPop st.device_names bus_id,
                      device_in_use := pyPop st.device_in_use bus_id }
  (ClientManager.device_removed st bus_id).1

/-- DeviceManager.force_free (lines 89-100): pop the in-use entry; when the
previous owner is truthy, emit force_free — ClientManager.force_free hands
the dispatcher an unawaited send coroutine, so no unbound frame is
written; usbip_unbind, the 200 ms settle, then usbip_bind: on success the
bus id is (re)added to the bind set with a fresh name, on failure it is
discarded from the bind set. -/
def DeviceManager.force_free (env : Env) (st : DaemonState) (bus_id : String) : DaemonState :=
  let prev : Option String := (List.lookup bus_id st.device_in_use).join
  let st := { st with device_in_use := pyPop st.device_in_use bus_id }
  let st :=
    match prev with
    | some p => if p != "" then (ClientManager.force_free st bus_id p).1 else st
    | none => st
  if env.bindSucceeds bus_id then
    { st with device_bind_set :=
                if bus_id ∈ st.device_bind_set then st.device_bind_set
                else st.device_bind_set ++ [bus_id],
              device_names := pyInsert st.device_names bus_id (env.deviceName bus_id) }
  else { st with device_bind_set := st.device_bind_set.erase bus_id }

/- ------------------------------------------------------------------ -/
/- Operator API: src/src/server/web_server.py                          -/
/- ------------------------------------------------------------------ -/

/-- web_server.assign_device (lines 30-52): ensure_bound when the bus id is
not in the bind set (membership is rechecked inside ensure_bound; a failed
bind leaves the bus id outside the set and the handler continues); read the
current in-use value (missing key and stored Python None both read as
None); equal to the target: normalize the assignment, already-in-use; a
truthy different owner: force_free; target the string none: free the
device, drop the assignment, unassigned; otherwise persist the assignment,
send the bound frame, and set or pop the in-use entry by delivery. -/
def WebServer.assign_device (env : Env) (st0 : DaemonState) (bus_id client_id : String) :
    DaemonState × String :=
  let st := if bus_id ∈ st0.device_bind_set then st0 else DeviceManager.ensure_bound env st0 bus_id
  let current : Option String := (List.lookup bus_id st.device_in_use).join
  if current == some client_id then
    (AssignmentManager.set_assignment st bus_id client_id, "already-in-use")
  else
    let st :=
      if pyTruthyOptStr current && (current != some client_id) then
        DeviceManager.force_free env st bus_id
      else st
    if client_id == "none" then
      (AssignmentManager.remove_assignment (DeviceManager.free_device st bus_id) bus_id,
       "unassigned")
    else
      let st := AssignmentManager.set_assignment st bus_id client_id
      let sent := ClientManager.send_to_client env st client_id (frame_bound bus_id)
      if sent.2 then
        ({ sent.1 with device_in_use := pyInsert sent.1.device_in_use bus_id (some client_id) },
         "assigned")
      else
        ({ sent.1 with device_in_use := pyPop sent.1.device_in_use bus_id },
         "queued-for-client")

/-- web_server.assign_all (lines 91-109). Target the string none: assign
the attribute assign_all_client_id directly — without save_assignments —
then for each key of the assignments snapshot force_free, pop the
assignment (a PersistentDict pop, which does save) and pop the in-use
entry; return cleared. Otherwise: assign the attribute directly — again
without save_assignments — force_free every exported device assigned to a
different client, then for every exported device persist the assignment,
send the bound frame (result unused) and set the in-use entry; return
assigned. -/
def WebServer.assign_all (env : Env) (st0 : DaemonState) (client_id : String) :
    DaemonState × String :=
  if client_id == "none" then
    let st := { st0 with assign_all_client_id := some "none" }
    let keys := st.device_assignments.map Prod.fst
    let st := keys.foldl (fun s b =>
      let s := DeviceManager.force_free env s b
      let s := AssignmentManager.remove_assignment s b
      DeviceManager.free_device s b) st
    (st, "cleared")
  else
    let st := { st0 with assign_all_client_id := some client_id }
    let st := st.device_bind_set.foldl (fun s b =>
      if (List.lookup b s.device_assignments).isSome &&
         (List.lookup b s.device_assignments != some client_id) then
        DeviceManager.force_free env s b
      else s) st
    let st := st.device_bind_set.foldl (fun s b =>
      let s := AssignmentManager.set_assignment s b client_id
      let s := (ClientManager.send_to_client env s client_id (frame_bound b)).1
      { s with device_in_use := pyInsert s.device_in_use b (some client_id) }) st
    (st, "assigned")

/- ------------------------------------------------------------------ -/
/- Environments used by the concrete runs                              -/
/- ------------------------------------------------------------------ -/

/-- Every writer accepts writes and every usbip bind succeeds. -/
def allAliveEnv : Env := ⟨fun _ => true, fun _ => true, fun b => b⟩

/-- Every writer accepts writes but usbip bind fails (device absent or
tool missing). -/
def noBindEnv : Env := ⟨fun _ => true, fun _ => false, fun b => b⟩

/- ------------------------------------------------------------------ -/
/- Lemmas                                                              -/
/- ------------------------------------------------------------------ -/

theorem pyLookup_eq_none_of_not_mem {α : Type} (k : String) (d : List (String × α))
    (h : k ∉ d.map Prod.fst) : List.lookup k d = none := by
  induction d with
  | nil => rfl
  | cons p t ih =>
    obtain ⟨a, b⟩ := p
    simp only [List.map_cons, List.mem_cons] at h
    push_neg at h
    have hk : (k == a) = false := beq_eq_false_iff_ne.mpr h.1
    simp [List.lookup, hk, ih h.2]

theorem pyUpdate_append (acc l : List (String × String))
    (h : ((acc ++ l).map Prod.fst).Nodup) : pyUpdate acc l = acc ++ l := by
  induction l generalizing acc with
  | nil => simp [pyUpdate]
  | cons p t ih =>
    obtain ⟨a, b⟩ := p
    have h' : ((acc.map Prod.fst) ++ a :: (t.map Prod.fst)).Nodup := by simpa using h
    have hmem : a ∉ acc.map Prod.fst := by
      intro hx
      exact (List.nodup_append.mp h').2.2 hx (by simp)
    have hnone : List.lookup a acc = none := pyLookup_eq_none_of_not_mem a acc hmem
    have hins : pyInsert acc a b = acc ++ [(a, b)] := by simp [pyInsert, hnone]
    have step : pyUpdate acc ((a, b) :: t) = pyUpdate (acc ++ [(a, b)]) t := by
      simp [pyUpdate, hins]
    rw [step, ih (acc ++ [(a, b)]) (by simpa using h)]
    simp

theorem decode_encode_entries (l : List (String × String)) :
    (l.map (fun p => (p.1, Json.str p.2))).filterMap
      (fun p => match p.2 with | Json.str s => some (p.1, s) | _ => none) = l := by
  induction l with
  | nil => rfl
  | cons p t ih =>
    obtain ⟨a, b⟩ := p
    simp [List.filterMap_cons, ih]

theorem load_dump_eq (aa : Option String) (da : List (String × String)) :
    AssignmentManager.load_record (AssignmentManager.dump_assignments ⟨aa, da⟩)
      = ⟨aa, pyUpdate [] ((da.map (fun p => (p.1, Json.str p.2))).filterMap
          (fun p => match p.2 with | Json.str s => some (p.1, s) | _ => none))⟩ := by
  cases aa <;> rfl

theorem dropWhile_append_of_forall (p : Char → Bool) (a b : List Char)
    (h : ∀ c ∈ a, p c = true) :
    List.dropWhile p (a ++ b) = List.dropWhile p b := by
  induction a with
  | nil => rfl
  | cons c t ih =>
    have hc : p c = true := h c (by simp)
    simp only [List.cons_append, List.dropWhile_cons, hc, if_true]
    exact ih (fun x hx => h x (by simp [hx]))

theorem pyStripL_client_id_ws (ws : List Char) (h : ∀ c ∈ ws, isPySpace c = true) :
    pyStripL ("CLIENT_ID:".toList ++ ws) = "CLIENT_ID:".toList := by
  unfold pyStripL
  have h1 : List.dropWhile isPySpace ("CLIENT_ID:".toList ++ ws)
      = "CLIENT_ID:".toList ++ ws := rfl
  rw [h1, List.reverse_append]
  have h2 : ∀ c ∈ ws.reverse, isPySpace c = true := fun c hc => h c (List.mem_reverse.mp hc)
  rw [dropWhile_append_of_forall _ _ _ h2]
  decide

/- ------------------------------------------------------------------ -/
/- Claims                                                              -/
/- ------------------------------------------------------------------ -/

/-- Claim C1. The claim requires the client agent to determine the verb of
a frame from the final whitespace token exactly, detach on an unbound
frame and never run usbip attach for it. The code instead tests the
substring bound first, which an unbound frame matches, so the agent takes
the attach branch: with the device unattached locally it runs usbip attach
outright, and with the device attached it detaches and then immediately
re-attaches — both contradicting the claim. -/
theorem C1_unbound_frame_runs_attach :
    UsbipClient.data_received_line ⟨[], ["1-1"]⟩ "Device 1-1 unbound"
      = [UsbipCmd.attach "1-1"] ∧
    UsbipClient.data_received_line ⟨[("1-1", "3")], ["1-1"]⟩ "Device 1-1 unbound"
      = [UsbipCmd.detach "3", UsbipCmd.attach "1-1"] := by decide

/-- Claim C2. The claim requires a removed frame to be handled: look up the
local port and detach when attached. The removed frame matches neither the
substring bound nor the substring unbound, so data_received falls through
both branches and the frame is silently discarded — even though the
detach path the claim demands (usbip detach -p 3 here) was available. -/
theorem C2_removed_frame_silently_dropped :
    UsbipClient.data_received_line ⟨[("1-1", "3")], []⟩ "Device 1-1 removed" = [] ∧
    UsbipClient.detach_device ⟨[("1-1", "3")], []⟩ "1-1" = [UsbipCmd.detach "3"] := by decide

/-- Claim C3. From a reachable state with devices 1-1 and 3-1 exported and
in use by the connected client catC, handling the udev remove of 1-1 does
remove it from the bind set, clear its in-use entry and retain the
desired-owner map — but no removed frame is ever delivered to the still
connected client: ClientManager.device_removed calls the async
send_to_client without awaiting it, so delivered is unchanged and holds
only the earlier bound frames. -/
theorem C3_removed_frame_not_delivered :
    (let st1 := ClientManager.register_client allAliveEnv DaemonState.init "catC" 1
     let st2 := (WebServer.assign_device allAliveEnv st1 "1-1" "catC").1
     let st3 := (WebServer.assign_device allAliveEnv st2 "3-1" "catC").1
     let st4 := DeviceManager.handle_remove st3 "1-1"
     st4.device_bind_set = ["3-1"] ∧
     List.lookup "1-1" st4.device_in_use = none ∧
     st4.device_assignments = [("1-1", "catC"), ("3-1", "catC")] ∧
     List.lookup "catC" st4.clients = some 1 ∧
     st4.delivered = [(1, frame_bound "1-1"), (1, frame_bound "3-1")] ∧
     st4.delivered = st3.delivered) := by decide

/-- Claim C4. Scenario S1: fresh daemon (assign_all_client_id is the
sentinel string none), 1-1 already exported, client catC connects over a
live writer. The claim expects auto-assignment, a delivered bound frame
and a persisted record. The auto-assign loop in register_client is guarded
by Python falsiness of assign_all_client_id, and the sentinel string is
truthy, so the loop never runs: no assignment, no frame, no file write. -/
theorem C4_sentinel_blocks_auto_assign :
    (let st1 := DeviceManager.handle_add allAliveEnv DaemonState.init "1-1"
     let st2 := ClientManager.register_client allAliveEnv st1 "catC" 1
     st1.device_bind_set = ["1-1"] ∧
     st2.assign_all_client_id = some "none" ∧
     List.lookup "1-1" st2.device_assignments = none ∧
     st2.delivered = [] ∧
     st2.disk = none) := by decide

/-- Claim C5. On device_added for 1-1 with no desired owner and no clients
connected, no bound frame can be accepted, so the claim requires
device_in_use to stay unset. Instead, the dispatcher returns the
one-element list holding an unawaited coroutine, the list is truthy, and
device_in_use for 1-1 is set to device_assignments.get — Python None: the
key becomes defined with an absent owner although nothing was delivered. -/
theorem C5_in_use_set_without_delivery :
    (let st := DeviceManager.handle_add allAliveEnv DaemonState.init "1-1"
     List.lookup "1-1" st.device_in_use = some none ∧
     st.delivered = [] ∧
     st.clients = []) := by decide

/-- Claim C6. The claim requires that a second connection with the same
client id closes the previous writer and clears its in-use entries before
registering, and that teardown of the superseded connection does not
disturb the new session. After catC registers writer 1 and then writer 2,
no writer has been closed; and when the first connection ends, its handler
calls unregister_client with the shared id, which removes the second
session from the map and closes writer 2 — the new session, not the old
one, is destroyed. -/
theorem C6_supersession_not_performed :
    (let st1 := ClientManager.register_client allAliveEnv DaemonState.init "catC" 1
     let st2 := ClientManager.register_client allAliveEnv st1 "catC" 2
     let st3 := ClientManager.unregister_client st2 "catC"
     st2.closed_writers = [] ∧
     List.lookup "catC" st2.clients = some 2 ∧
     List.lookup "catC" st3.clients = none ∧
     st3.closed_writers = [2]) := by decide

/-- Claim C7. The claimed invariant: device_in_use defined for B implies B
in the bind set, preserved by every operation even when ensure_bound
fails. Counterexample from a reachable state: catC connects to a fresh
daemon, then the operator assigns 9-9 to catC while usbip bind fails.
ensure_bound leaves 9-9 outside the bind set, yet the handler proceeds,
the frame is delivered, and device_in_use for 9-9 is set — the invariant
is broken and the API even reports assigned. -/
theorem C7_in_use_without_export :
    (let st1 := ClientManager.register_client noBindEnv DaemonState.init "catC" 1
     let r := WebServer.assign_device noBindEnv st1 "9-9" "catC"
     (List.lookup "9-9" r.1.device_in_use).isSome = true ∧
     "9-9" ∉ r.1.device_bind_set ∧
     r.2 = "assigned") := by decide

/-- Claim C8. The claim requires every mutation of the assignment record,
including assign_all through the operator API, to be flushed to disk
before the operation returns. The web assign_all handler writes the
assign_all_client_id attribute directly, bypassing save_assignments, and
with no exported devices no PersistentDict mutation runs either: the
operation returns assigned with the in-memory fallback changed and the
file still absent. -/
theorem C8_assign_all_not_flushed :
    (let r := WebServer.assign_all allAliveEnv DaemonState.init "catC"
     r.1.assign_all_client_id = some "catC" ∧
     r.1.disk = none ∧
     r.2 = "assigned") := by decide

/-- Claim C9. Saving any assignment record (any optional fallback client
and any device-assignment map with distinct bus ids) to the assignments
file and loading it back yields an equal record. -/
theorem C9_save_load_round_trip (r : AssignRecord)
    (h : (r.device_assignments.map Prod.fst).Nodup) :
    AssignmentManager.load_record (AssignmentManager.dump_assignments r) = r := by
  obtain ⟨aa, da⟩ := r
  have hupd : pyUpdate [] da = da := by
    simpa using pyUpdate_append [] da (by simpa using h)
  rw [load_dump_eq, decode_encode_entries, hupd]

/-- Witness for claim C9 at a concrete record. -/
theorem C9_save_load_round_trip_witness :
    (([("1-1", "catC"), ("3-1", "dogD")].map Prod.fst).Nodup) ∧
    AssignmentManager.load_record (AssignmentManager.dump_assignments
        ⟨some "none", [("1-1", "catC"), ("3-1", "dogD")]⟩)
      = ⟨some "none", [("1-1", "catC"), ("3-1", "dogD")]⟩ :=
  ⟨by decide, C9_save_load_round_trip _ (by decide)⟩

/-- Claim C10. When the first line is CLIENT_ID: followed only by
whitespace, the stripped remainder is empty and Python-falsy, so the
server does not register an empty id: it fabricates peer_ip colon
peer_port, exactly as for a line without the prefix. -/
theorem C10_blank_client_id_falls_back (ws : List Char)
    (h : ∀ c ∈ ws, isPySpace c = true) (ip : String) (port : Nat) :
    TcpServer.parse_client_id ("CLIENT_ID:".toList ++ ws) ip port
      = TcpServer.fallback_id ip port ∧
    TcpServer.parse_client_id ("CLIENT_ID:".toList ++ ws) ip port
      = TcpServer.parse_client_id [] ip port := by
  have hraw := pyStripL_client_id_ws ws h
  unfold TcpServer.parse_client_id
  rw [hraw]
  exact ⟨rfl, rfl⟩

/-- Witness for claim C10 at a concrete whitespace tail and peer. -/
theorem C10_blank_client_id_falls_back_witness :
    (∀ c ∈ [' ', '\t'], isPySpace c = true) ∧
    (TcpServer.parse_client_id ("CLIENT_ID:".toList ++ [' ', '\t']) "10.0.0.7" 4242
        = TcpServer.fallback_id "10.0.0.7" 4242 ∧
     TcpServer.parse_client_id ("CLIENT_ID:".toList ++ [' ', '\t']) "10.0.0.7" 4242
        = TcpServer.parse_client_id [] "10.0.0.7" 4242) :=
  ⟨by decide, C10_blank_client_id_falls_back [' ', '\t'] (by decide) "10.0.0.7" 4242⟩
